import Mathlib

/-!
Verification of the `CoreClientProvider` core of
`src/arduino-ide-extension/src/browser/customization/arduino-problem-contribution.ts`
(the session manager, handshake and index synchronizer layered on the gRPC
transport).  The transport itself is abstracted away: every server stream is
embedded as the finite list of data events it delivers followed by how it
closes (clean end or error), and the text sink is embedded as the list of
chunks appended to it, in order.
-/

set_option autoImplicit false

namespace ArduinoIde

/-- A chunk appended to the `ToolOutputServiceServer` sink:
`\x7b tool, chunk, severity? \x7d` in the source. -/
structure Chunk where
  tool : String
  chunk : String
  severity : Option String
deriving DecidableEq, Repr

/-- Chunk with no severity, as in `\x7b tool: "daemon", chunk: text \x7d`. -/
def daemonChunk (text : String) : Chunk :=
  { tool := "daemon", chunk := text, severity := none }

/-- Chunk with severity error, as in
`\x7b tool: "daemon", chunk: text, severity: "error" \x7d`. -/
def daemonError (text : String) : Chunk :=
  { tool := "daemon", chunk := text, severity := some "error" }

/-- The single-quote character, kept out of string literals. -/
def sq : String := String.singleton (Char.ofNat 39)

/-- How a server stream closes: a clean `end` event or an `error` event. -/
inductive StreamClose where
  | ended
  | errored (msg : String)
deriving DecidableEq, Repr

/-- A server stream: the data events delivered, then how the stream closed. -/
structure EventStream (α : Type) where
  events : List α
  close : StreamClose

/-- JavaScript truthiness of a `string | undefined` value:
`undefined` and the empty string are falsy. -/
def jsTruthy : Option String → Bool
  | none => false
  | some s => s != ""

/-- JavaScript falsiness of a `string | undefined` value. -/
def jsFalsyOpt (o : Option String) : Bool :=
  match o with
  | none => true
  | some s => s == ""

/-- Membership of a character in the JavaScript regular-expression class
`\s` (as tested by the `/\s/` literal in the source). -/
def jsIsWhitespace (c : Char) : Bool :=
  c.toNat = 0x9 || c.toNat = 0xa || c.toNat = 0xb || c.toNat = 0xc ||
  c.toNat = 0xd || c.toNat = 0x20 || c.toNat = 0xa0 || c.toNat = 0x1680 ||
  (0x2000 ≤ c.toNat && c.toNat ≤ 0x200a) || c.toNat = 0x2028 ||
  c.toNat = 0x2029 || c.toNat = 0x202f || c.toNat = 0x205f ||
  c.toNat = 0x3000 || c.toNat = 0xfeff

/-- The test `/\s/.test(file)` of the source. -/
def testWhitespace (s : String) : Bool := s.data.any jsIsWhitespace

/-- Download progress payload of an index-update response: accessors
`getFile()` (a proto3 string, empty when absent) and `getCompleted()`. -/
structure DownloadProgress where
  file : String
  completed : Bool
deriving DecidableEq, Repr

/-- A data event of the package-index update stream (`UpdateIndexResp`);
`getDownloadProgress()` may be undefined. -/
structure UpdateIndexResp where
  downloadProgress : Option DownloadProgress
deriving DecidableEq, Repr

/-- A data event of the library-index update stream
(`UpdateLibrariesIndexResp`). -/
structure UpdateLibrariesIndexResp where
  downloadProgress : Option DownloadProgress
deriving DecidableEq, Repr

/-- The generic completion line of `updateIndex` (the template literal in the
source carries a stray trailing single quote after the newline). -/
def indexGenericChunk : Chunk :=
  daemonChunk ("The index has been successfully updated.\n" ++ sq)

/-- The generic completion line of `updateLibraryIndex`. -/
def libGenericChunk : Chunk :=
  daemonChunk ("The library index has been successfully updated.\n" ++ sq)

/-- The tracked in-flight filename after an event is examined:
`if (!file && progress.getFile()) file = progress.getFile()`. -/
def trackedAfter (file : Option String) : Option DownloadProgress → Option String
  | none => file
  | some progress =>
      if jsFalsyOpt file && (progress.file != "") then some progress.file else file

/-- The single completion line emitted when a completed progress event is
observed, given the tracked filename: the `if (file) ... else ...` ladder of
the source data handler (a tracked name containing whitespace uses the bare
phrasing, otherwise the quoted `Download of ...` phrasing; with no tracked
name the generic line is used). -/
def completionChunk (generic : Chunk) : Option String → Chunk
  | some f =>
      if f == "" then generic
      else if testWhitespace f then daemonChunk (f ++ " completed.\n")
      else daemonChunk ("Download of " ++ sq ++ f ++ sq ++ " completed.\n" ++ sq)
  | none => generic

/-- One step of the `resp.on("data", ...)` handler shared by `updateIndex`
and `updateLibraryIndex`: given the tracked filename and the (optional)
download progress of the event, produce the next tracked filename and the
chunks appended to the sink. -/
def progressStep (generic : Chunk) (file : Option String) :
    Option DownloadProgress → Option String × List Chunk
  | none => (file, [])
  | some progress =>
      let file1 := if jsFalsyOpt file && (progress.file != "") then some progress.file else file
      if progress.completed then (none, [completionChunk generic file1])
      else (file1, [])

/-- Run the data handler over the whole event list, starting from a tracked
filename, collecting the sink output in order. -/
def consumeProgress (generic : Chunk) (file : Option String) :
    List (Option DownloadProgress) → List Chunk
  | [] => []
  | p :: rest =>
      let s := progressStep generic file p
      s.2 ++ consumeProgress generic s.1 rest

/-- `CoreClientProvider.updateIndex`: consume the `updateIndex` stream (the
local `file` variable starts undefined), appending status lines to the sink;
the surrounding promise resolves on `end` and rejects with the stream error
on `error`. -/
def updateIndex (s : EventStream UpdateIndexResp) : List Chunk × Except String Unit :=
  (consumeProgress indexGenericChunk none (s.events.map (fun o => o.downloadProgress)),
   match s.close with
   | StreamClose.ended => Except.ok ()
   | StreamClose.errored e => Except.error e)

/-- `CoreClientProvider.updateLibraryIndex`: same handler with the
library-index generic line. -/
def updateLibraryIndex (s : EventStream UpdateLibrariesIndexResp) :
    List Chunk × Except String Unit :=
  (consumeProgress libGenericChunk none (s.events.map (fun o => o.downloadProgress)),
   match s.close with
   | StreamClose.ended => Except.ok ()
   | StreamClose.errored e => Except.error e)

/-- Per-attempt error line of the package-index retry loop:
`Error while updating index in attempt i: e`. -/
def indexErrChunk (i : Nat) (e : String) : Chunk :=
  daemonError ("Error while updating index in attempt " ++ toString i ++ ": " ++ e)

/-- Per-attempt error line of the library-index retry loop. -/
def libErrChunk (i : Nat) (e : String) : Chunk :=
  daemonError ("Error while updating library index in attempt " ++ toString i ++ ": " ++ e)

/-- Terminal line of the package-index loop (dead code in the source, see
`retrySync`). -/
def unableIndexChunk : Chunk :=
  daemonError "Was unable to update the index. Please restart to try again."

/-- Terminal line of the library-index loop. -/
def unableLibChunk : Chunk :=
  daemonError "Was unable to update the library index. Please restart to try again."

/-- The `for (let i = 0; i < 10; i++) try ... catch ...` retry loop of
`updateIndexes`, translated with the remaining iteration count as fuel.
`a i` is the outcome of attempt `i` (its sink output and its result);
`flag` is the value of the `succeeded` variable entering the loop.  On
success the variable is set to `true` and the loop breaks; on failure the
catch block appends one error line and the loop continues; on exhaustion the
variable keeps the value it had (the source never assigns `false`). -/
def retrySync (a : Nat → List Chunk × Except String Unit)
    (e : Nat → String → Chunk) : Nat → Nat → Bool → List Chunk × Bool
  | _, 0, flag => ([], flag)
  | i, fuel + 1, flag =>
      match (a i).2 with
      | Except.ok _ => ((a i).1, true)
      | Except.error msg =>
          let r := retrySync a e (i + 1) fuel flag
          ((a i).1 ++ [e i msg] ++ r.1, r.2)

/-- Sink output of the package-index half of `updateIndexes`: the retry
loop output followed by the terminal line when the succeeded flag is false. -/
def pkgPhase (pkg : Nat → EventStream UpdateIndexResp) : List Chunk :=
  let p := retrySync (fun i => updateIndex (pkg i)) indexErrChunk 0 10 true
  p.1 ++ (if p.2 then [] else [unableIndexChunk])

/-- Sink output of the library-index half of `updateIndexes`. -/
def libPhase (lib : Nat → EventStream UpdateLibrariesIndexResp) : List Chunk :=
  let l := retrySync (fun i => updateLibraryIndex (lib i)) libErrChunk 0 10 true
  l.1 ++ (if l.2 then [] else [unableLibChunk])

/-- `CoreClientProvider.updateIndexes`: run the package-index retry loop,
then the library-index retry loop, against the per-attempt streams supplied
by the environment.  Returns the sink output in order and whether
`onIndexUpdatedEmitter.fire()` ran (it runs when both succeeded flags hold,
and both flags are initialized `true` and never assigned `false`). -/
def updateIndexes (pkg : Nat → EventStream UpdateIndexResp)
    (lib : Nat → EventStream UpdateLibrariesIndexResp) : List Chunk × Bool :=
  let p := retrySync (fun i => updateIndex (pkg i)) indexErrChunk 0 10 true
  let pkgSink := p.1 ++ (if p.2 then [] else [unableIndexChunk])
  let l := retrySync (fun i => updateLibraryIndex (lib i)) libErrChunk 0 10 true
  let libSink := l.1 ++ (if l.2 then [] else [unableLibChunk])
  (pkgSink ++ libSink, p.2 && l.2)

/-- Opaque instance handle issued by the daemon handshake
(`cc.arduino.cli.commands.Instance`). -/
structure Instance where
  id : Nat
deriving DecidableEq, Repr

/-- A data event of the `init` stream (`InitResp`); the accessor
`getInstance()` may return undefined. -/
structure InitResp where
  getInstance : Option Instance
deriving DecidableEq, Repr

/-- `CoreClientProvider.Client`: the pair of the gRPC channel and the
instance handle.  The channel carries no observable state in this model, so
only the instance handle is kept. -/
structure Client where
  instanceHandle : Instance
deriving DecidableEq, Repr

/-- The ways `createClient` can throw: `typeError` is the JavaScript
`TypeError` raised by calling `.getInstance()` on the undefined value that
the init promise resolves with when the stream delivered no data event;
`initializationError` is the explicit
`Error("Could not retrieve instance from the initialize response.")`;
`transportError` is a stream error rejected by the init promise. -/
inductive CreateErr where
  | typeError
  | initializationError
  | transportError (msg : String)
deriving DecidableEq, Repr

/-- Environment of one reconciliation: the init stream the daemon would
serve and, for each index kind, the stream served to the i-th sync attempt. -/
structure Env where
  initStream : EventStream InitResp
  pkg : Nat → EventStream UpdateIndexResp
  lib : Nat → EventStream UpdateLibrariesIndexResp

/-- `CoreClientProvider.createClient`: the init stream is consumed retaining
only the last data event (`resp = data` on every data event); the promise
rejects on a stream error; then `initResp.getInstance()` is taken (a
TypeError when no event arrived and `initResp` is undefined), the explicit
error is thrown when the instance is missing, and otherwise `updateIndexes`
runs before the client is returned.  The returned triple is the client, the
sink output of `updateIndexes`, and whether the index-updated event fired. -/
def createClient (env : Env) : Except CreateErr (Client × List Chunk × Bool) :=
  match env.initStream.close with
  | StreamClose.errored msg => Except.error (CreateErr.transportError msg)
  | StreamClose.ended =>
      match env.initStream.events.getLast? with
      | none => Except.error CreateErr.typeError
      | some initResp =>
          match initResp.getInstance with
          | none => Except.error CreateErr.initializationError
          | some inst =>
              let u := updateIndexes env.pkg env.lib
              Except.ok ({ instanceHandle := inst }, u.1, u.2)

/-- State of the provider: the `_port` and `_client` fields inherited from
`GrpcClientProvider`. -/
structure ManagerState where
  port : Option String
  client : Option Client
deriving DecidableEq, Repr

/-- Observable outcome of one `reconcileClient` invocation: the state left
behind, the sink output, how many times each emitter fired, how many gRPC
channels were constructed, and the error propagated to the caller, if any. -/
structure ReconcileOut where
  state : ManagerState
  sink : List Chunk
  clientReady : Nat
  indexUpdated : Nat
  created : Nat
  err : Option CreateErr
deriving DecidableEq, Repr

/-- Modelled from the spec: `GrpcClientProvider.reconcileClient`, the
superclass method, is not among the given sources.  Per the spec it retires
any current Session, records the new endpoint, and performs the
handshake-and-create path when an endpoint is present; a fatal handshake
failure leaves the manager with no session and propagates to the caller.
`created` counts channel constructions (the channel is constructed at the
top of `createClient`, before the handshake). -/
def superReconcile (st : ManagerState) (port : Option String) (env : Env) :
    ReconcileOut :=
  let st1 : ManagerState := { port := port, client := none }
  if jsTruthy port then
    match createClient env with
    | Except.error e => ⟨st1, [], 0, 0, 1, some e⟩
    | Except.ok (c, sink, updated) =>
        ⟨{ st1 with client := some c }, sink, 0, if updated then 1 else 0, 1, none⟩
  else ⟨st1, [], 0, 0, 0, none⟩

/-- `CoreClientProvider.reconcileClient`: when the port is truthy and equals
the current `_port`, no new client is created; if a client exists, the
indexes are updated against it and the client-ready emitter fires (when no
client exists nothing happens at all).  Otherwise the superclass method runs
and the client-ready emitter fires after it; an error thrown by the
superclass skips the fire and propagates. -/
def reconcileClient (st : ManagerState) (port : Option String) (env : Env) :
    ReconcileOut :=
  if jsTruthy port && port == st.port then
    match st.client with
    | some _ =>
        let u := updateIndexes env.pkg env.lib
        ⟨st, u.1, 1, if u.2 then 1 else 0, 0, none⟩
    | none => ⟨st, [], 0, 0, 0, none⟩
  else
    let s := superReconcile st port env
    match s.err with
    | some e => ⟨s.state, s.sink, 0, s.indexUpdated, s.created, some e⟩
    | none => ⟨s.state, s.sink, 1, s.indexUpdated, s.created, none⟩

/-- Reachability invariant of the manager: whenever a client is held, the
recorded port is truthy (clients are only ever created against a truthy
port). -/
def Inv (st : ManagerState) : Prop :=
  st.client.isSome = true → jsTruthy st.port = true

theorem inv_initial : Inv { port := none, client := none } := by
  intro h
  simp at h

theorem inv_preserved (st : ManagerState) (port : Option String) (env : Env)
    (h : Inv st) : Inv (reconcileClient st port env).state := by
  unfold reconcileClient superReconcile
  by_cases hb : (jsTruthy port && port == st.port) = true
  · simp only [hb, if_true]
    cases hc : st.client with
    | some c => simpa using h
    | none => simpa using h
  · simp only [hb, if_false, Bool.not_eq_true] at *
    by_cases ht : jsTruthy port = true
    · simp only [ht, if_true]
      cases hcc : createClient env with
      | error e => intro hx; simp at hx
      | ok v => intro _; simpa using ht
    · simp only [Bool.not_eq_true] at ht
      simp only [ht, Bool.false_eq_true, if_false]
      intro hx
      simp at hx

/-! Helper lemmas about the retry loop and the progress handler. -/

/-- Whether the event is a progress event signalling completion. -/
def isCompletedEvent : Option DownloadProgress → Bool
  | none => false
  | some p => p.completed

/-- Whether a chunk was appended with severity error. -/
def isErrChunk (c : Chunk) : Bool := c.severity == some "error"

/-- Number of severity-error chunks in a sink output. -/
def errCount (l : List Chunk) : Nat := l.countP isErrChunk

/-- Whether attempt `i` of an attempt family fails. -/
def attemptFails (a : Nat → List Chunk × Except String Unit) (i : Nat) : Bool :=
  match (a i).2 with
  | Except.ok _ => false
  | Except.error _ => true

/-- Number of consecutive failing attempts starting at `i`, capped by the
remaining fuel. -/
def leadingFailures (a : Nat → List Chunk × Except String Unit) :
    Nat → Nat → Nat
  | _, 0 => 0
  | i, fuel + 1 =>
      if attemptFails a i then leadingFailures a (i + 1) fuel + 1 else 0

theorem progressStep_length (generic : Chunk) (file : Option String)
    (p : Option DownloadProgress) :
    ((progressStep generic file p).2).length = if isCompletedEvent p then 1 else 0 := by
  cases p with
  | none => rfl
  | some d =>
      cases hc : d.completed with
      | true => simp [progressStep, isCompletedEvent, hc]
      | false => simp [progressStep, isCompletedEvent, hc]

theorem progressStep_cleared (generic : Chunk) (file : Option String)
    (p : Option DownloadProgress) (h : isCompletedEvent p = true) :
    (progressStep generic file p).1 = none := by
  cases p with
  | none => simp [isCompletedEvent] at h
  | some d =>
      simp only [isCompletedEvent] at h
      simp [progressStep, h]

theorem progressStep_completion (generic : Chunk) (file : Option String)
    (p : Option DownloadProgress) (h : isCompletedEvent p = true) :
    (progressStep generic file p).2 = [completionChunk generic (trackedAfter file p)] := by
  cases p with
  | none => simp [isCompletedEvent] at h
  | some d =>
      simp only [isCompletedEvent] at h
      simp [progressStep, trackedAfter, h]

theorem progressStep_not_completed (generic : Chunk) (file : Option String)
    (p : Option DownloadProgress) (h : isCompletedEvent p = false) :
    (progressStep generic file p).2 = [] := by
  cases p with
  | none => rfl
  | some d =>
      simp only [isCompletedEvent] at h
      simp [progressStep, h]

theorem consumeProgress_length (generic : Chunk) :
    ∀ (evs : List (Option DownloadProgress)) (file : Option String),
      (consumeProgress generic file evs).length = evs.countP isCompletedEvent := by
  intro evs
  induction evs with
  | nil => intro file; rfl
  | cons p rest ih =>
      intro file
      simp only [consumeProgress, List.length_append, List.countP_cons, ih,
        progressStep_length]
      cases h : isCompletedEvent p <;> simp [h] <;> omega

theorem errCount_append (l1 l2 : List Chunk) :
    errCount (l1 ++ l2) = errCount l1 + errCount l2 := by
  simp [errCount, List.countP_append]

theorem completionChunk_not_err (generic : Chunk) (t : Option String)
    (hg : isErrChunk generic = false) :
    isErrChunk (completionChunk generic t) = false := by
  cases t with
  | none => simpa [completionChunk] using hg
  | some f =>
      by_cases h1 : (f == "") = true
      · simpa [completionChunk, h1] using hg
      · by_cases h2 : testWhitespace f = true
        · simp [completionChunk, h1, h2, isErrChunk, daemonChunk]
        · simp [completionChunk, h1, h2, isErrChunk, daemonChunk]

theorem progressStep_errCount (generic : Chunk) (file : Option String)
    (p : Option DownloadProgress) (hg : isErrChunk generic = false) :
    errCount (progressStep generic file p).2 = 0 := by
  cases p with
  | none => rfl
  | some d =>
      cases hc : d.completed with
      | true =>
          simp [progressStep, hc, errCount, List.countP_cons,
            completionChunk_not_err _ _ hg]
      | false => simp [progressStep, hc, errCount]

theorem consumeProgress_errCount (generic : Chunk) (hg : isErrChunk generic = false) :
    ∀ (evs : List (Option DownloadProgress)) (file : Option String),
      errCount (consumeProgress generic file evs) = 0 := by
  intro evs
  induction evs with
  | nil => intro file; rfl
  | cons p rest ih =>
      intro file
      simp only [consumeProgress]
      rw [errCount_append, progressStep_errCount _ _ _ hg, ih]

theorem updateIndex_errCount (s : EventStream UpdateIndexResp) :
    errCount (updateIndex s).1 = 0 := by
  exact consumeProgress_errCount _ (by rfl) _ _

theorem updateLibraryIndex_errCount (s : EventStream UpdateLibrariesIndexResp) :
    errCount (updateLibraryIndex s).1 = 0 := by
  exact consumeProgress_errCount _ (by rfl) _ _

theorem retrySync_flag (a : Nat → List Chunk × Except String Unit)
    (e : Nat → String → Chunk) :
    ∀ (fuel i : Nat), (retrySync a e i fuel true).2 = true := by
  intro fuel
  induction fuel with
  | zero => intro i; rfl
  | succ n ih =>
      intro i
      cases h : (a i).2 with
      | ok _ => simp [retrySync, h]
      | error msg => simp [retrySync, h, ih]

theorem retrySync_errCount (a : Nat → List Chunk × Except String Unit)
    (e : Nat → String → Chunk)
    (hA : ∀ j, errCount (a j).1 = 0)
    (hE : ∀ j m, isErrChunk (e j m) = true) :
    ∀ (fuel i : Nat) (flag : Bool),
      errCount (retrySync a e i fuel flag).1 = leadingFailures a i fuel := by
  intro fuel
  induction fuel with
  | zero => intro i flag; rfl
  | succ n ih =>
      intro i flag
      cases h : (a i).2 with
      | ok _ =>
          simp [retrySync, leadingFailures, attemptFails, h, hA i]
      | error msg =>
          have hL : leadingFailures a i (n + 1) = leadingFailures a (i + 1) n + 1 := by
            simp [leadingFailures, attemptFails, h]
          have hone : errCount [e i msg] = 1 := by
            simp [errCount, List.countP_cons, hE i msg]
          simp only [retrySync, h]
          rw [errCount_append, errCount_append, hA i, ih, hone, hL]
          omega

/-! Concrete inputs used by the claim theorems. -/

/-- Package-index attempt family where every attempt errors immediately. -/
def allFailPkg : Nat → EventStream UpdateIndexResp :=
  fun _ => ⟨[], StreamClose.errored "transport failure"⟩

/-- Package-index attempt family where every attempt ends cleanly at once. -/
def allOkPkg : Nat → EventStream UpdateIndexResp :=
  fun _ => ⟨[], StreamClose.ended⟩

/-- Library-index attempt family where every attempt ends cleanly at once. -/
def allOkLib : Nat → EventStream UpdateLibrariesIndexResp :=
  fun _ => ⟨[], StreamClose.ended⟩

/-- Claim C1 (code bug witnessed): with ten consecutive failing package-index
attempts, `updateIndexes` emits the ten per-attempt error lines, but the
terminal unable-to-update line is never emitted and both the loop flag and
the overall result still report success, because `indexUpdateSucceeded` is
initialized `true` and no code path ever assigns `false` to it. -/
theorem c1_retry_flag_bug :
    errCount (updateIndexes allFailPkg allOkLib).1 = 10
    ∧ unableIndexChunk ∉ (updateIndexes allFailPkg allOkLib).1
    ∧ (retrySync (fun i => updateIndex (allFailPkg i)) indexErrChunk 0 10 true).2 = true
    ∧ (updateIndexes allFailPkg allOkLib).2 = true := by
  refine ⟨by decide, by decide, by decide, by decide⟩

/-- Manager state holding a session against port 50051. -/
def c2State : ManagerState :=
  { port := some "50051", client := some { instanceHandle := { id := 7 } } }

/-- Environment whose package-index sync fails every attempt while the
library-index sync succeeds immediately. -/
def c2Env : Env :=
  { initStream := ⟨[], StreamClose.ended⟩, pkg := allFailPkg, lib := allOkLib }

/-- Claim C2 (code bug witnessed): a reconciliation whose package-index sync
fails all ten attempts still fires the index-updated event exactly once, so
success is reported even though one index kind failed every attempt. -/
theorem c2_index_updated_fires_despite_failure :
    errCount (reconcileClient c2State (some "50051") c2Env).sink = 10
    ∧ (reconcileClient c2State (some "50051") c2Env).indexUpdated = 1 := by
  refine ⟨by decide, by decide⟩

/-- Environment whose handshake stream delivers one message carrying no
instance handle. -/
def c3Env : Env :=
  { initStream := ⟨[{ getInstance := none }], StreamClose.ended⟩,
    pkg := allOkPkg, lib := allOkLib }

/-- Claim C3 counterexample: a reconciliation from the empty state against a
handshake that never delivers a usable instance handle fires the
client-ready notification zero times, not exactly once. -/
theorem c3_counterexample :
    (reconcileClient { port := none, client := none } (some "50051") c3Env).clientReady
      = 0 := by
  decide

/-- Claim C3 (amended): the client-ready notification fires exactly once for
a reconciliation precisely when no handshake error propagated to the caller
and it is not the case that the endpoint is unchanged (and truthy) while no
client is held; in the two remaining cases it does not fire at all. -/
theorem c3_client_ready_characterization (st : ManagerState)
    (port : Option String) (env : Env) :
    (reconcileClient st port env).clientReady =
      if ((reconcileClient st port env).err == none)
          && !((jsTruthy port && (port == st.port)) && st.client.isNone)
      then 1 else 0 := by
  by_cases hb : (jsTruthy port && (port == st.port)) = true
  · cases hc : st.client with
    | some c => simp [reconcileClient, hb, hc]
    | none => simp [reconcileClient, hb, hc]
  · rw [Bool.not_eq_true] at hb
    cases hs : (superReconcile st port env).err with
    | some e => simp [reconcileClient, hb, hs]
    | none => simp [reconcileClient, hb, hs]

/-- Environment whose handshake stream ends without delivering any message. -/
def c4EmptyEnv : Env :=
  { initStream := ⟨[], StreamClose.ended⟩, pkg := allOkPkg, lib := allOkLib }

/-- Claim C4 counterexample: when the init stream ends having delivered no
message at all, `createClient` fails with the TypeError raised by reading
`getInstance` of the undefined resolved value, not with the explicit
initialization error the claim names. -/
theorem c4_counterexample :
    createClient c4EmptyEnv = Except.error CreateErr.typeError
    ∧ CreateErr.typeError ≠ CreateErr.initializationError := by
  refine ⟨rfl, by decide⟩

/-- Claim C4 (amended): under a cleanly ending init stream, `createClient`
retains only the last delivered message; it fails with the TypeError when no
message arrived, fails with the initialization error when the last message
carries no usable instance handle, and otherwise returns the client built
from the instance handle of the last message together with the outcome of
`updateIndexes`. -/
theorem c4_create_client_handshake (env : Env)
    (h : env.initStream.close = StreamClose.ended) :
    (env.initStream.events = [] →
        createClient env = Except.error CreateErr.typeError)
    ∧ (∀ r : InitResp, env.initStream.events.getLast? = some r →
        (r.getInstance = none →
            createClient env = Except.error CreateErr.initializationError)
        ∧ (∀ inst : Instance, r.getInstance = some inst →
            createClient env =
              Except.ok ({ instanceHandle := inst },
                (updateIndexes env.pkg env.lib).1,
                (updateIndexes env.pkg env.lib).2))) := by
  refine ⟨?_, ?_⟩
  · intro he
    simp [createClient, h, he]
  · intro r hr
    refine ⟨?_, ?_⟩
    · intro hn
      simp [createClient, h, hr, hn]
    · intro inst hi
      simp [createClient, h, hr, hi]

/-- Environment whose handshake succeeds with instance handle 1 and whose
index syncs succeed immediately. -/
def c4GoodEnv : Env :=
  { initStream := ⟨[{ getInstance := some { id := 1 } }], StreamClose.ended⟩,
    pkg := allOkPkg, lib := allOkLib }

/-- Witness for claim C4 at a concrete environment. -/
theorem c4_witness :
    createClient c4GoodEnv =
      Except.ok ({ instanceHandle := { id := 1 } },
        (updateIndexes c4GoodEnv.pkg c4GoodEnv.lib).1,
        (updateIndexes c4GoodEnv.pkg c4GoodEnv.lib).2) :=
  ((c4_create_client_handshake c4GoodEnv rfl).2
      { getInstance := some { id := 1 } } (by decide)).2 { id := 1 } rfl

/-- Claim C5: when a session exists and the new endpoint equals the endpoint
of the current session, no new connection is created, the state is left
untouched, the client-ready notification fires exactly once, the sink output
is exactly that of running both index syncs, and no error propagates. -/
theorem c5_unchanged_endpoint_reuse (st : ManagerState) (port : Option String)
    (env : Env) (c : Client) (hInv : Inv st) (hc : st.client = some c)
    (hp : port = st.port) :
    (reconcileClient st port env).created = 0
    ∧ (reconcileClient st port env).state = st
    ∧ (reconcileClient st port env).clientReady = 1
    ∧ (reconcileClient st port env).sink = (updateIndexes env.pkg env.lib).1
    ∧ (reconcileClient st port env).err = none := by
  have ht : jsTruthy st.port = true := hInv (by rw [hc]; rfl)
  have hb : (jsTruthy port && (port == st.port)) = true := by
    rw [hp]
    simp [ht]
  simp [reconcileClient, hb, hc]

/-- Manager state for the claim C5 witness. -/
def c5State : ManagerState :=
  { port := some "50051", client := some { instanceHandle := { id := 1 } } }

/-- Environment for the claim C5 witness. -/
def c5Env : Env :=
  { initStream := ⟨[], StreamClose.ended⟩, pkg := allOkPkg, lib := allOkLib }

/-- Witness for claim C5 at a concrete state and environment. -/
theorem c5_witness :
    (reconcileClient c5State (some "50051") c5Env).created = 0
    ∧ (reconcileClient c5State (some "50051") c5Env).clientReady = 1 :=
  ⟨(c5_unchanged_endpoint_reuse c5State (some "50051") c5Env
      { instanceHandle := { id := 1 } } (fun _ => rfl) rfl rfl).1,
   (c5_unchanged_endpoint_reuse c5State (some "50051") c5Env
      { instanceHandle := { id := 1 } } (fun _ => rfl) rfl rfl).2.2.1⟩

/-- Claim C6: when the endpoint differs from the current one and the
handshake fails with the initialization error, the error propagates to the
caller of reconcile, neither notification fires, and the manager is left
holding no session. -/
theorem c6_initialization_error_propagates (st : ManagerState)
    (port : Option String) (env : Env) (ht : jsTruthy port = true)
    (hne : port ≠ st.port)
    (hcc : createClient env = Except.error CreateErr.initializationError) :
    (reconcileClient st port env).err = some CreateErr.initializationError
    ∧ (reconcileClient st port env).clientReady = 0
    ∧ (reconcileClient st port env).indexUpdated = 0
    ∧ (reconcileClient st port env).state.client = none := by
  simp [reconcileClient, superReconcile, ht, hne, hcc]

/-- Environment for the claim C6 witness: its handshake stream delivers one
message with no usable instance handle. -/
def c6Env : Env :=
  { initStream := ⟨[{ getInstance := none }], StreamClose.ended⟩,
    pkg := allOkPkg, lib := allOkLib }

/-- Witness for claim C6 at a concrete state and environment. -/
theorem c6_witness :
    (reconcileClient { port := none, client := none } (some "50051") c6Env).err
        = some CreateErr.initializationError
    ∧ (reconcileClient { port := none, client := none } (some "50051") c6Env).state.client
        = none :=
  ⟨(c6_initialization_error_propagates { port := none, client := none }
      (some "50051") c6Env rfl (by decide) rfl).1,
   (c6_initialization_error_propagates { port := none, client := none }
      (some "50051") c6Env rfl (by decide) rfl).2.2.2⟩

/-- Claim C7: each index-update stream yields exactly one completion sink
line per observed completed progress event (the sink output of one stream
consumption consists of completion lines only, so its length is the count of
completed progress events); on a completed event the handler emits exactly
the line selected by the tracked filename (bare phrasing for a name with
whitespace, quoted phrasing otherwise, the generic line with no name) and
clears the tracked filename; on any other event it emits nothing. -/
theorem c7_completion_lines :
    (∀ s : EventStream UpdateIndexResp,
        (updateIndex s).1.length
          = (s.events.map (fun o => o.downloadProgress)).countP isCompletedEvent)
    ∧ (∀ s : EventStream UpdateLibrariesIndexResp,
        (updateLibraryIndex s).1.length
          = (s.events.map (fun o => o.downloadProgress)).countP isCompletedEvent)
    ∧ (∀ (generic : Chunk) (file : Option String) (p : Option DownloadProgress),
        isCompletedEvent p = true →
          (progressStep generic file p).1 = none
          ∧ (progressStep generic file p).2
              = [completionChunk generic (trackedAfter file p)])
    ∧ (∀ (generic : Chunk) (file : Option String) (p : Option DownloadProgress),
        isCompletedEvent p = false → (progressStep generic file p).2 = []) := by
  refine ⟨?_, ?_, ?_, ?_⟩
  · intro s
    exact consumeProgress_length _ _ _
  · intro s
    exact consumeProgress_length _ _ _
  · intro generic file p h
    exact ⟨progressStep_cleared generic file p h, progressStep_completion generic file p h⟩
  · intro generic file p h
    exact progressStep_not_completed generic file p h

/-- Witness for claim C7 at a concrete completed progress event. -/
theorem c7_witness :
    (progressStep indexGenericChunk none
        (some { file := "package_index.json", completed := true })).1 = none
    ∧ (progressStep indexGenericChunk none
        (some { file := "package_index.json", completed := true })).2
      = [completionChunk indexGenericChunk
          (trackedAfter none (some { file := "package_index.json", completed := true }))] :=
  c7_completion_lines.2.2.1 indexGenericChunk none
    (some { file := "package_index.json", completed := true }) rfl

/-- Claim C8: the sink output of `updateIndexes` is exactly the package-index
phase output followed by the library-index phase output, for every pair of
attempt families; in particular the library phase, which depends only on the
library attempt streams, is present even when every package attempt fails. -/
theorem c8_sequential_phases (pkg : Nat → EventStream UpdateIndexResp)
    (lib : Nat → EventStream UpdateLibrariesIndexResp) :
    (updateIndexes pkg lib).1 = pkgPhase pkg ++ libPhase lib := rfl

/-- Claim C9: failures during index synchronization are confined to the
retry loops: the severity-error lines in the sink output of `updateIndexes`
number exactly the failing attempts consumed by the two loops (one line per
caught failure, nothing rethrown, the codomain of `updateIndexes` carrying
no exception), and a reconciliation that only runs index synchronization
against an existing session never propagates an error to its caller. -/
theorem c9_failures_confined :
    (∀ (pkg : Nat → EventStream UpdateIndexResp)
        (lib : Nat → EventStream UpdateLibrariesIndexResp),
        errCount (updateIndexes pkg lib).1
          = leadingFailures (fun i => updateIndex (pkg i)) 0 10
            + leadingFailures (fun i => updateLibraryIndex (lib i)) 0 10)
    ∧ (∀ (st : ManagerState) (port : Option String) (env : Env),
        jsTruthy port = true → port = st.port → st.client.isSome = true →
          (reconcileClient st port env).err = none) := by
  constructor
  · intro pkg lib
    have hpf := retrySync_flag (fun i => updateIndex (pkg i)) indexErrChunk 10 0
    have hlf := retrySync_flag (fun i => updateLibraryIndex (lib i)) libErrChunk 10 0
    have hp := retrySync_errCount (fun i => updateIndex (pkg i)) indexErrChunk
      (fun j => updateIndex_errCount (pkg j)) (fun j m => rfl) 10 0 true
    have hl := retrySync_errCount (fun i => updateLibraryIndex (lib i)) libErrChunk
      (fun j => updateLibraryIndex_errCount (lib j)) (fun j m => rfl) 10 0 true
    simp only [updateIndexes, hpf, hlf, if_true]
    rw [errCount_append, errCount_append, errCount_append, hp, hl]
    simp [errCount]
  · intro st port env ht hp hcs
    have hb : (jsTruthy port && (port == st.port)) = true := by
      rw [hp] at ht ⊢
      simp [ht]
    cases hc : st.client with
    | some c => simp [reconcileClient, hb, hc]
    | none =>
        rw [hc] at hcs
        simp at hcs

/-- Manager state for the claim C9 witness. -/
def c9State : ManagerState :=
  { port := some "50051", client := some { instanceHandle := { id := 2 } } }

/-- Environment for the claim C9 witness: the package-index sync fails every
attempt, yet reconcile reports no error. -/
def c9Env : Env :=
  { initStream := ⟨[], StreamClose.ended⟩, pkg := allFailPkg, lib := allOkLib }

/-- Witness for claim C9 at a concrete state and environment. -/
theorem c9_witness :
    errCount (updateIndexes allFailPkg allOkLib).1
      = leadingFailures (fun i => updateIndex (allFailPkg i)) 0 10
        + leadingFailures (fun i => updateLibraryIndex (allOkLib i)) 0 10
    ∧ (reconcileClient c9State (some "50051") c9Env).err = none :=
  ⟨c9_failures_confined.1 allFailPkg allOkLib,
   c9_failures_confined.2 c9State (some "50051") c9Env rfl rfl rfl⟩

/-- Claim C10: a reconciliation against an existing session with the
unchanged endpoint leaves the state untouched, so running reconcile twice in
a row over the same environment produces identical observable outcomes (in
particular identical sink output, the tracked filename being local to each
single stream consumption). -/
theorem c10_reconcile_idempotent (st : ManagerState) (port : Option String)
    (env : Env) (c : Client) (hc : st.client = some c)
    (ht : jsTruthy port = true) (hp : port = st.port) :
    (reconcileClient st port env).state = st
    ∧ reconcileClient (reconcileClient st port env).state port env
        = reconcileClient st port env := by
  have hb : (jsTruthy port && (port == st.port)) = true := by
    rw [hp] at ht ⊢
    simp [ht]
  have hst : (reconcileClient st port env).state = st := by
    simp [reconcileClient, hb, hc]
  exact ⟨hst, by rw [hst]⟩

/-- Manager state for the claim C10 witness. -/
def c10State : ManagerState :=
  { port := some "50051", client := some { instanceHandle := { id := 3 } } }

/-- Environment for the claim C10 witness: one download completes during the
package-index sync. -/
def c10Env : Env :=
  { initStream := ⟨[], StreamClose.ended⟩,
    pkg := fun _ =>
      ⟨[{ downloadProgress := some { file := "package_index.json", completed := true } }],
       StreamClose.ended⟩,
    lib := allOkLib }

/-- Witness for claim C10 at a concrete state and environment. -/
theorem c10_witness :
    (reconcileClient c10State (some "50051") c10Env).state = c10State
    ∧ reconcileClient (reconcileClient c10State (some "50051") c10Env).state
        (some "50051") c10Env
      = reconcileClient c10State (some "50051") c10Env :=
  c10_reconcile_idempotent c10State (some "50051") c10Env
    { instanceHandle := { id := 3 } } rfl rfl rfl

end ArduinoIde
